import Mathlib

/-!
Verification development for the webhook dispatch engine of the
Formerr FastAPI repository (`app/webhooks/service.py` and the
submission-creation flow of `app/database/services.py`).

The Python code is shallowly embedded: bytes are `List Nat` (each < 256),
machine 32-bit words are `Nat` reduced modulo `2^32`, HTTP and database
effects are passed in explicitly as outcome parameters, and fallible
operations return `Except`.
-/

set_option maxRecDepth 100000

deriving instance DecidableEq for Except

namespace Formerr

/-! ## Bytes, hex, UTF-8 -/

/-- Lowercase hexadecimal digit for a value below 16 (as produced by
Python's `hexdigest`). -/
def hexDigitChar (n : Nat) : Char :=
  if n < 10 then Char.ofNat (48 + n) else Char.ofNat (87 + n)

/-- Lowercase hexadecimal rendering of a byte string, two digits per byte:
the format of `hashlib`'s `hexdigest()`. -/
def toHex (bs : List Nat) : String :=
  String.mk (bs.flatMap fun b => [hexDigitChar (b / 16 % 16), hexDigitChar (b % 16)])

/-- UTF-8 encoding of one Unicode scalar value, as a list of bytes. -/
def utf8Char (c : Char) : List Nat :=
  let n := c.toNat
  if n < 128 then [n]
  else if n < 2048 then [192 + n / 64, 128 + n % 64]
  else if n < 65536 then [224 + n / 4096, 128 + n / 64 % 64, 128 + n % 64]
  else [240 + n / 262144, 128 + n / 4096 % 64, 128 + n / 64 % 64, 128 + n % 64]

/-- UTF-8 encoding of a string: Python's `str.encode('utf-8')`. -/
def utf8Encode (s : String) : List Nat :=
  s.data.flatMap utf8Char

/-! ## SHA-256 (FIPS 180-4), over byte lists -/

/-- Reduce to a 32-bit word. -/
def w32 (x : Nat) : Nat := x % 4294967296

/-- Right rotation of a 32-bit word by `n` bits. -/
def rotr32 (n x : Nat) : Nat := w32 ((x >>> n) ||| (x <<< (32 - n)))

/-- SHA-256 choice function. -/
def shaCh (e f g : Nat) : Nat := (e &&& f) ^^^ ((e ^^^ 4294967295) &&& g)

/-- SHA-256 majority function. -/
def shaMaj (a b c : Nat) : Nat := (a &&& b) ^^^ (a &&& c) ^^^ (b &&& c)

/-- SHA-256 big sigma 0. -/
def bigSigma0 (x : Nat) : Nat := rotr32 2 x ^^^ rotr32 13 x ^^^ rotr32 22 x

/-- SHA-256 big sigma 1. -/
def bigSigma1 (x : Nat) : Nat := rotr32 6 x ^^^ rotr32 11 x ^^^ rotr32 25 x

/-- SHA-256 small sigma 0. -/
def smallSigma0 (x : Nat) : Nat := rotr32 7 x ^^^ rotr32 18 x ^^^ (x >>> 3)

/-- SHA-256 small sigma 1. -/
def smallSigma1 (x : Nat) : Nat := rotr32 17 x ^^^ rotr32 19 x ^^^ (x >>> 10)

/-- The 64 SHA-256 round constants of FIPS 180-4 (fractional parts of
the cube roots of the first 64 primes), written in decimal. -/
def shaK : List Nat :=
  [1116352408, 1899447441, 3049323471, 3921009573,
   961987163, 1508970993, 2453635748, 2870763221,
   3624381080, 310598401, 607225278, 1426881987,
   1925078388, 2162078206, 2614888103, 3248222580,
   3835390401, 4022224774, 264347078, 604807628,
   770255983, 1249150122, 1555081692, 1996064986,
   2554220882, 2821834349, 2952996808, 3210313671,
   3336571891, 3584528711, 113926993, 338241895,
   666307205, 773529912, 1294757372, 1396182291,
   1695183700, 1986661051, 2177026350, 2456956037,
   2730485921, 2820302411, 3259730800, 3345764771,
   3516065817, 3600352804, 4094571909, 275423344,
   430227734, 506948616, 659060556, 883997877,
   958139571, 1322822218, 1537002063, 1747873779,
   1955562222, 2024104815, 2227730452, 2361852424,
   2428436474, 2756734187, 3204031479, 3329325298]

/-- The initial SHA-256 hash state (fractional parts of the square roots
of the first 8 primes), written in decimal. -/
def shaH0 : List Nat :=
  [1779033703, 3144134277, 1013904242, 2773480762,
   1359893119, 2600822924, 528734635, 1541459225]

/-- Group bytes four at a time into big-endian 32-bit words. -/
def bytesToWords : List Nat → List Nat
  | a :: b :: c :: d :: rest => (a * 16777216 + b * 65536 + c * 256 + d) :: bytesToWords rest
  | _ => []

/-- Extend the message schedule by `n` further words. -/
def shaExtend : Nat → List Nat → List Nat
  | 0, ws => ws
  | n + 1, ws =>
      let len := ws.length
      let wi := w32 (ws.getD (len - 16) 0 + smallSigma0 (ws.getD (len - 15) 0) +
                     ws.getD (len - 7) 0 + smallSigma1 (ws.getD (len - 2) 0))
      shaExtend n (ws ++ [wi])

/-- One SHA-256 compression round on an 8-word working state, fed one
round constant paired with one schedule word. -/
def shaRound (st : List Nat) (kw : Nat × Nat) : List Nat :=
  match st with
  | [a, b, c, d, e, f, g, h] =>
      let t1 := w32 (h + bigSigma1 e + shaCh e f g + kw.1 + kw.2)
      let t2 := w32 (bigSigma0 a + shaMaj a b c)
      [w32 (t1 + t2), a, b, c, w32 (d + t1), e, f, g]
  | other => other

/-- Compress one 64-byte block into the running hash state. -/
def compressBlock (hs : List Nat) (block : List Nat) : List Nat :=
  let ws := shaExtend 48 (bytesToWords block)
  let fin := (shaK.zip ws).foldl shaRound hs
  (hs.zip fin).map fun p => w32 (p.1 + p.2)

/-- Split a byte list into successive 64-byte blocks, with fuel bounding
the recursion depth (one block consumes at least one byte). -/
def toBlocksFuel : Nat → List Nat → List (List Nat)
  | 0, _ => []
  | _ + 1, [] => []
  | n + 1, l => l.take 64 :: toBlocksFuel n (l.drop 64)

/-- Split a byte list into successive 64-byte blocks. -/
def toBlocks (l : List Nat) : List (List Nat) :=
  toBlocksFuel l.length l

/-- Big-endian 8-byte rendering of a natural number (the SHA-256 length
field). -/
def beBytes8 (n : Nat) : List Nat :=
  [n >>> 56 % 256, n >>> 48 % 256, n >>> 40 % 256, n >>> 32 % 256,
   n >>> 24 % 256, n >>> 16 % 256, n >>> 8 % 256, n % 256]

/-- SHA-256 padding: append `0x80`, zero bytes up to 56 mod 64, then the
bit length as 8 big-endian bytes. -/
def shaPad (msg : List Nat) : List Nat :=
  let zeros := (119 - msg.length % 64) % 64
  msg ++ [128] ++ List.replicate zeros 0 ++ beBytes8 (msg.length * 8)

/-- SHA-256 of a byte list, producing the 32-byte digest. -/
def sha256 (msg : List Nat) : List Nat :=
  let hs := (toBlocks (shaPad msg)).foldl compressBlock shaH0
  hs.flatMap fun x => [x >>> 24 % 256, x >>> 16 % 256, x >>> 8 % 256, x % 256]

/-! ## HMAC-SHA256 (RFC 2104) -/

/-- HMAC-SHA256 of a message under a key, both byte lists; block size 64. -/
def hmacSha256 (key msg : List Nat) : List Nat :=
  let k0 := if 64 < key.length then sha256 key else key
  let kp := k0 ++ List.replicate (64 - k0.length) 0
  let ipadded := kp.map fun b => b ^^^ 54
  let opadded := kp.map fun b => b ^^^ 92
  sha256 (opadded ++ sha256 (ipadded ++ msg))

/-- Python `WebhookService.create_signature`: HMAC-SHA256 of the payload
string keyed by the secret, both UTF-8 encoded, rendered as
`"sha256=" ++ lowercase hex digest`. -/
def create_signature (payload secret : String) : String :=
  "sha256=" ++ toHex (hmacSha256 (utf8Encode secret) (utf8Encode payload))

/-! ## JSON values and Python `json.dumps`

The webhook payload is a Python dict serialized by
`json.dumps(payload, ensure_ascii=False)` with the default separators
`", "` and `": "` and insertion-ordered keys.  JSON numbers occurring in
the repository's payloads are integers (counts and ids); floats do not
occur and are not modelled. -/

inductive Json where
  | null : Json
  | bool : Bool → Json
  | num : Int → Json
  | str : String → Json
  | arr : List Json → Json
  | obj : List (String × Json) → Json

/-- Four lowercase hex digits, as in Python's `\u00XX` escapes. -/
def hex4 (n : Nat) : String :=
  String.mk [hexDigitChar (n / 4096 % 16), hexDigitChar (n / 256 % 16),
             hexDigitChar (n / 16 % 16), hexDigitChar (n % 16)]

/-- Escape one character the way `json.dumps(..., ensure_ascii=False)`
does: only the quote, the backslash and control characters are escaped;
everything else passes through. -/
def escChar (c : Char) : String :=
  if c = '"' then "\\\""
  else if c = '\\' then "\\\\"
  else if c = '\n' then "\\n"
  else if c = '\r' then "\\r"
  else if c = '\t' then "\\t"
  else if c = Char.ofNat 8 then "\\b"
  else if c = Char.ofNat 12 then "\\f"
  else if c.toNat < 32 then "\\u" ++ hex4 c.toNat
  else String.singleton c

/-- Serialize a string to a JSON string literal. -/
def dumpsStr (s : String) : String :=
  "\"" ++ String.join (s.data.map escChar) ++ "\""

mutual

/-- Python `json.dumps(v, ensure_ascii=False)` with default separators. -/
def dumps : Json → String
  | .null => "null"
  | .bool b => if b then "true" else "false"
  | .num n => toString n
  | .str s => dumpsStr s
  | .arr xs => "[" ++ dumpsArr xs ++ "]"
  | .obj ms => "\x7b" ++ dumpsObj ms ++ "\x7d"

/-- Comma-joined serialization of array elements. -/
def dumpsArr : List Json → String
  | [] => ""
  | [x] => dumps x
  | x :: y :: xs => dumps x ++ ", " ++ dumpsArr (y :: xs)

/-- Comma-joined serialization of object members. -/
def dumpsObj : List (String × Json) → String
  | [] => ""
  | [(k, v)] => dumpsStr k ++ ": " ++ dumps v
  | (k, v) :: m :: ms => dumpsStr k ++ ": " ++ dumps v ++ ", " ++ dumpsObj (m :: ms)

end

/-! ## Data model (`app/webhooks/models.py`, `app/database/models.py`) -/

/-- The `WebhookEvent` enumeration of `app/webhooks/models.py`. -/
inductive WebhookEvent where
  | submission_created
  | submission_updated
  | form_created
  | form_updated
  | form_deleted
  | user_registered
  deriving DecidableEq

/-- The string value of a `WebhookEvent` member. -/
def WebhookEvent.value : WebhookEvent → String
  | .submission_created => "submission.created"
  | .submission_updated => "submission.updated"
  | .form_created => "form.created"
  | .form_updated => "form.updated"
  | .form_deleted => "form.deleted"
  | .user_registered => "user.registered"

/-- The `Webhook` ORM row of `app/database/models.py`.  `secret` is a
nullable string column; `last_triggered` is a nullable datetime, with
instants abstracted to `Nat`. -/
structure Webhook where
  id : String
  form_id : String
  url : String
  events : List String
  secret : Option String
  active : Bool
  last_triggered : Option Nat
  failure_count : Nat
  deriving DecidableEq

/-- Python truthiness of the nullable `secret` column, as tested by
`if webhook.secret:` — false exactly for `None` and the empty string. -/
def secretTruthy : Option String → Bool
  | none => false
  | some s => !s.isEmpty

/-- The `webhook_payload` dict built by `trigger_webhooks` (and the test
payload of `test_webhook`): the delivery envelope. -/
structure WebhookPayload where
  event : String
  timestamp : String
  form_id : String
  data : Json
  delivery_id : String
  source : String

/-- The envelope as the JSON value that `json.dumps` receives, with the
dict's insertion order of keys. -/
def payloadJson (p : WebhookPayload) : Json :=
  .obj [("event", .str p.event), ("timestamp", .str p.timestamp),
        ("form_id", .str p.form_id), ("data", p.data),
        ("delivery_id", .str p.delivery_id), ("source", .str p.source)]

/-! ## Delivery client (`WebhookService._send_webhook`) -/

/-- The outbound HTTP POST as constructed by `_send_webhook`: target URL,
body string (UTF-8 encoded on the wire) and header list in insertion
order. -/
structure Request where
  url : String
  body : String
  headers : List (String × String)
  deriving DecidableEq

/-- Header dict built by `_send_webhook`: the five fixed headers, then
`X-Formerr-Signature` appended only when the subscription's secret is
truthy. -/
def requestHeaders (w : Webhook) (p : WebhookPayload) (payload_str : String) :
    List (String × String) :=
  let base := [("Content-Type", "application/json"),
               ("User-Agent", "Formerr-Webhooks/1.0 (BrunoV7)"),
               ("X-Formerr-Event", p.event),
               ("X-Formerr-Delivery", p.delivery_id),
               ("X-Formerr-Timestamp", p.timestamp)]
  if secretTruthy w.secret then
    base ++ [("X-Formerr-Signature", create_signature payload_str (w.secret.getD ""))]
  else base

/-- Request-construction phase of `_send_webhook`: the payload is
serialized exactly once (`payload_str = json.dumps(payload,
ensure_ascii=False)`), and that same string is both signed and posted as
the body. -/
def buildRequest (w : Webhook) (p : WebhookPayload) : Request :=
  let payload_str := dumps (payloadJson p)
  { url := w.url, body := payload_str, headers := requestHeaders w p payload_str }

/-- Outcome of the HTTP POST issued by `_send_webhook`, supplied by the
environment: a response with a status code and elapsed milliseconds, an
`httpx.TimeoutException`, or any other exception with its message. -/
inductive HttpOutcome where
  | response (status : Nat) (elapsedMs : Nat)
  | timeoutExc
  | otherExc (msg : String)
  deriving DecidableEq

/-- Result dict returned by `_send_webhook` (and the error dict built in
`trigger_webhooks`' exception handler).  `Option` fields model keys that
are absent from some of the dict shapes. -/
structure SendResult where
  webhook_id : String
  success : Bool
  status_code : Option Nat
  response_time_ms : Option Nat
  error : Option String
  url : String
  delivery_id : Option String
  deriving DecidableEq

/-- Outcome-classification phase of `_send_webhook`: a response is a
success exactly when its status is below 400 (keeping status code,
elapsed time and delivery id); a timeout gives a failure dict with
`error = "timeout"` and no status; any other exception gives a failure
dict with the exception's message and no status. -/
def sendWebhook (w : Webhook) (p : WebhookPayload) (o : HttpOutcome) : SendResult :=
  match o with
  | .response st ms =>
      { webhook_id := w.id, success := decide (st < 400), status_code := some st,
        response_time_ms := some ms, error := none, url := w.url,
        delivery_id := some p.delivery_id }
  | .timeoutExc =>
      { webhook_id := w.id, success := false, status_code := none,
        response_time_ms := none, error := some "timeout", url := w.url,
        delivery_id := none }
  | .otherExc m =>
      { webhook_id := w.id, success := false, status_code := none,
        response_time_ms := none, error := some m, url := w.url,
        delivery_id := none }

/-! ## Dispatcher (`WebhookService.trigger_webhooks`) -/

/-- Behaviour of one loop iteration's call to `_send_webhook`: either the
call completes (it classifies every HTTP outcome itself and returns a
dict), or it raises before producing a result, which the `except` branch
of the loop catches. -/
inductive SendBehavior where
  | completes (o : HttpOutcome)
  | raises (msg : String)
  deriving DecidableEq

/-- One iteration of the fan-out loop, recorded for specification: the
request that `_send_webhook` built (absent when it raised), the result
dict appended to `results`, and the mutated ORM row. -/
structure Step where
  request : Option Request
  result : SendResult
  webhook : Webhook
  deriving DecidableEq

/-- The webhook-selection query of `trigger_webhooks`: rows with matching
`form_id`, `active == True`, and the event value contained in the
`events` array. -/
def findMatching (dbWebhooks : List Webhook) (form_id : String) (eventValue : String) :
    List Webhook :=
  dbWebhooks.filter fun w => w.form_id == form_id && w.active && w.events.contains eventValue

/-- The single `webhook_payload` dict built by `trigger_webhooks` before
the loop: one timestamp and one freshly generated `delivery_id` for the
whole fan-out. -/
def triggerPayload (event : WebhookEvent) (timestamp form_id : String)
    (payload : Json) (uuid : String) : WebhookPayload :=
  { event := event.value, timestamp := timestamp, form_id := form_id,
    data := payload, delivery_id := uuid, source := "formerr_brunov7_beast_mode" }

/-- One iteration of the loop body of `trigger_webhooks`.  When
`_send_webhook` completes, its result is appended, `last_triggered` is
set, and `failure_count` is reset to 0 on success or incremented on
failure.  When it raises, the handler appends an error dict and
increments `failure_count` without touching `last_triggered`. -/
def processWebhook (p : WebhookPayload) (now : Nat) (w : Webhook) (b : SendBehavior) : Step :=
  match b with
  | .completes o =>
      let r := sendWebhook w p o
      { request := some (buildRequest w p), result := r,
        webhook := { w with last_triggered := some now,
                            failure_count := if r.success then 0 else w.failure_count + 1 } }
  | .raises m =>
      { request := none,
        result := { webhook_id := w.id, success := false, status_code := none,
                    response_time_ms := none, error := some m, url := w.url,
                    delivery_id := none },
        webhook := { w with failure_count := w.failure_count + 1 } }

/-- The fan-out loop: one step per matching webhook, in order, each fed
its own `_send_webhook` behaviour (indexed by position from `i`). -/
def runDeliveries (p : WebhookPayload) (now : Nat) :
    List Webhook → (Nat → SendBehavior) → Nat → List Step
  | [], _, _ => []
  | w :: ws, bs, i => processWebhook p now w (bs i) :: runDeliveries p now ws bs (i + 1)

/-- Trace of one `trigger_webhooks` call.  The Python function returns
only the `results` list; the requests and mutated rows are the other
observable effects of the call and are carried for specification. -/
structure TriggerTrace where
  steps : List Step
  deriving DecidableEq

/-- The `results` list that `trigger_webhooks` returns. -/
def TriggerTrace.results (t : TriggerTrace) : List SendResult :=
  t.steps.map Step.result

/-- Python `WebhookService.trigger_webhooks`.  Selects the matching
webhooks; if none, returns `[]` before any payload is built or commit
attempted.  Otherwise builds the single payload dict, runs the loop, and
performs `await db.commit()` — which is not inside any `try`, so a commit
failure propagates as an exception (`Except.error`) and the results list
is lost.  The environment supplies the two `utcnow()` readings (the
ISO-8601 `timestamp` string for the payload, `now` for `last_triggered`),
the one generated `str(uuid.uuid4())`, each iteration's `_send_webhook`
behaviour, and the commit outcome. -/
def trigger_webhooks (dbWebhooks : List Webhook) (form_id : String) (event : WebhookEvent)
    (payload : Json) (timestamp uuid : String) (now : Nat)
    (behaviors : Nat → SendBehavior) (commit : Except String Unit) :
    Except String TriggerTrace :=
  let webhooks := findMatching dbWebhooks form_id event.value
  if webhooks.isEmpty then .ok ⟨[]⟩
  else
    let wp := triggerPayload event timestamp form_id payload uuid
    let steps := runDeliveries wp now webhooks behaviors 0
    match commit with
    | .ok _ => .ok ⟨steps⟩
    | .error e => .error e

/-! ## Manual test delivery (`WebhookService.test_webhook`) -/

/-- The fixed example payload built by `test_webhook` (timestamp and
delivery id supplied by the environment). -/
def testPayload (form_id timestamp uuid : String) : WebhookPayload :=
  { event := "webhook.test", timestamp := timestamp, form_id := form_id,
    data := .obj [("test", .bool true),
                  ("message", .str "This is a test webhook from Formerr Beast Mode"),
                  ("brunov7_says", .str "🚀 WEBHOOK TEST SUCCESSFUL! 🚀")],
    delivery_id := uuid, source := "formerr_test_brunov7" }

/-- Value returned by `test_webhook`: either the not-found error dict, or
the delivery result together with the mutated ORM row. -/
inductive TestResponse where
  | notFound : TestResponse
  | delivered : SendResult → Webhook → TestResponse
  deriving DecidableEq

/-- Python `WebhookService.test_webhook`.  `dbWebhooks` stands for the
rows visible through the ownership join (webhooks of forms owned by the
requesting user).  An unknown id returns the error dict before any
delivery or commit.  Otherwise the example payload is sent through
`_send_webhook`; afterwards `last_triggered` is set and `failure_count`
is incremented on failure but left unchanged on success (no reset), and
the trailing `await db.commit()` is again outside any `try`. -/
def test_webhook (dbWebhooks : List Webhook) (webhook_id : String)
    (timestamp uuid : String) (outcome : HttpOutcome) (now : Nat)
    (commit : Except String Unit) : Except String TestResponse :=
  match dbWebhooks.find? (fun w => w.id == webhook_id) with
  | none => .ok .notFound
  | some w =>
      let r := sendWebhook w (testPayload w.form_id timestamp uuid) outcome
      let w' : Webhook :=
        { w with last_triggered := some now,
                 failure_count := if r.success then w.failure_count else w.failure_count + 1 }
      match commit with
      | .ok _ => .ok (.delivered r w')
      | .error e => .error e

/-! ## Submission creation (`SubmissionsService.create_submission`) -/

/-- The `Submission` ORM row, reduced to the fields the webhook payload
reads. -/
structure Submission where
  id : String
  form_id : String
  answers : List Json
  submitted_at : String

/-- Python `SubmissionsService.create_submission`, from the point where
the new row is committed.  `commitSub` is the outcome of the submission's
own `db.add`/`db.commit`/counter update, which precedes dispatch and
whose failure propagates.  The webhook trigger is wrapped in
`try: ... except Exception as e: print(...)`: whatever `trigger_webhooks`
does — including raising — the function returns the submission, with the
swallowed error message recorded as the printed log line (`none` when
nothing was caught). -/
def create_submission (sub : Submission) (commitSub : Except String Unit)
    (dispatch : Except String TriggerTrace) : Except String (Submission × Option String) :=
  match commitSub with
  | .error e => .error e
  | .ok _ =>
      match dispatch with
      | .ok _ => .ok (sub, none)
      | .error e => .ok (sub, some e)

/-! ## Concrete fixtures used by witnesses and counterexamples -/

/-- An active subscription to `submission.created` with no secret and a
clean failure counter. -/
def wA : Webhook :=
  { id := "wh_a", form_id := "form_42", url := "https://a.example/hook",
    events := ["submission.created"], secret := none, active := true,
    last_triggered := none, failure_count := 0 }

/-- Like `wA` but with a secret configured. -/
def wB : Webhook :=
  { wA with id := "wh_b", url := "https://b.example/hook", secret := some "whsec_abc" }

/-- Like `wA` but already degraded: three consecutive failures. -/
def wC : Webhook :=
  { wA with id := "wh_c", url := "https://c.example/hook", failure_count := 3 }

/-- A registry holding two matching subscriptions. -/
def dbEx : List Webhook := [wC, wA]

/-- The envelope of an example `submission.created` trigger. -/
def pEx : WebhookPayload :=
  triggerPayload .submission_created "2025-01-01T00:00:00" "form_42" (.obj []) "u1"

/-- Behaviour stream where every delivery succeeds with HTTP 200. -/
def bsOK : Nat → SendBehavior := fun _ => .completes (.response 200 5)

/-- Behaviour stream where the first delivery succeeds and every later
one times out. -/
def bsMix : Nat → SendBehavior :=
  fun i => if i = 0 then .completes (.response 200 5) else .completes .timeoutExc

/-- Trace of the example trigger under `bsOK`. -/
def tOK : TriggerTrace :=
  ⟨runDeliveries pEx 7 (findMatching dbEx "form_42" "submission.created") bsOK 0⟩

/-- Trace of the example trigger under `bsMix`. -/
def tMix : TriggerTrace :=
  ⟨runDeliveries pEx 7 (findMatching dbEx "form_42" "submission.created") bsMix 0⟩

/-! ## Validation of the embedded primitives against published vectors -/

/-- FIPS 180-4 test vector: SHA-256 of the empty message. -/
theorem sha256_empty_vector :
    toHex (sha256 []) = "e3b0c44298fc1c149afbf4c8996fb92427ae41e4649b934ca495991b7852b855" := by
  decide

/-- FIPS 180-4 test vector: SHA-256 of "abc". -/
theorem sha256_abc_vector :
    toHex (sha256 (utf8Encode "abc")) =
      "ba7816bf8f01cfea414140de5dae2223b00361a396177a9cb410ff61f20015ad" := by
  decide

/-- RFC 4231 test case 2 for HMAC-SHA256. -/
theorem hmac_rfc4231_case2 :
    toHex (hmacSha256 (utf8Encode "Jefe") (utf8Encode "what do ya want for nothing?")) =
      "5bdcc146bf60754e6a042426089575c75a003f089d2739839dec58b964ec3843" := by
  decide

/-! ## Helper lemmas about the fan-out loop -/

/-- The loop produces exactly one step per webhook. -/
theorem runDeliveries_length (p : WebhookPayload) (now : Nat) (ws : List Webhook)
    (bs : Nat → SendBehavior) (i : Nat) :
    (runDeliveries p now ws bs i).length = ws.length := by
  induction ws generalizing i with
  | nil => rfl
  | cons w ws ih => simp [runDeliveries, ih]

/-- Step `j` of the loop is determined by webhook `j` and behaviour
`i + j` alone. -/
theorem runDeliveries_get (p : WebhookPayload) (now : Nat) (ws : List Webhook)
    (bs : Nat → SendBehavior) (i j : Nat) (hj : j < ws.length)
    (hj' : j < (runDeliveries p now ws bs i).length) :
    (runDeliveries p now ws bs i).get ⟨j, hj'⟩ =
      processWebhook p now (ws.get ⟨j, hj⟩) (bs (i + j)) := by
  induction ws generalizing i j with
  | nil => exact absurd hj (by simp)
  | cons w ws ih =>
      cases j with
      | zero => rfl
      | succ j =>
          have := ih (i + 1) j (by simpa using Nat.lt_of_succ_lt_succ hj)
            (by simpa [runDeliveries, runDeliveries_length] using Nat.lt_of_succ_lt_succ hj)
          simpa [runDeliveries, Nat.add_comm, Nat.add_assoc, Nat.add_left_comm] using this

/-- The delivery header of every built request carries the envelope's
delivery id. -/
theorem buildRequest_lookup_delivery (w : Webhook) (p : WebhookPayload) :
    (buildRequest w p).headers.lookup "X-Formerr-Delivery" = some p.delivery_id := by
  cases hsec : secretTruthy w.secret <;> simp [buildRequest, requestHeaders, hsec, List.lookup]

/-! ## Claim theorems -/

/-- C1 (counterexample): a single `trigger_webhooks` call fanning out to
two matching subscriptions hands both of them the same delivery id, both
in the result list and in the `X-Formerr-Delivery` header of each built
request — the ids are not pairwise distinct. -/
theorem fanout_delivery_ids_counterexample :
    (trigger_webhooks dbEx "form_42" .submission_created (.obj []) "2025-01-01T00:00:00"
        "u1" 7 bsOK (.ok ())).map (fun t => t.steps.map fun s => s.result.delivery_id) =
      .ok [some "u1", some "u1"] ∧
    (trigger_webhooks dbEx "form_42" .submission_created (.obj []) "2025-01-01T00:00:00"
        "u1" 7 bsOK (.ok ())).map
        (fun t => t.steps.map fun s => s.request.map
          fun r => r.headers.lookup "X-Formerr-Delivery") =
      .ok [some (some "u1"), some (some "u1")] ∧
    ¬ List.Pairwise (fun a b : Option String => a ≠ b) [some "u1", some "u1"] := by
  refine ⟨by decide, by decide, by decide⟩

/-- C1 (amended): the delivery id is generated once per
`trigger_webhooks` call, so every request built during the fan-out
carries that one id in `X-Formerr-Delivery` and every result's
`delivery_id`, when present, equals it: subscribers of the same event
share the delivery id rather than receiving pairwise distinct ones. -/
theorem fanout_delivery_id_shared (db : List Webhook) (fid : String) (ev : WebhookEvent)
    (pl : Json) (ts uuid : String) (now : Nat) (bs : Nat → SendBehavior)
    (t : TriggerTrace) (i : Nat) (r : Request)
    (h : trigger_webhooks db fid ev pl ts uuid now bs (.ok ()) = .ok t)
    (hi : i < t.steps.length)
    (hr : (t.steps.get ⟨i, hi⟩).request = some r) :
    r.headers.lookup "X-Formerr-Delivery" = some uuid ∧
    ∀ d, (t.steps.get ⟨i, hi⟩).result.delivery_id = some d → d = uuid := by
  simp only [trigger_webhooks] at h
  cases hempty : (findMatching db fid ev.value).isEmpty with
  | true =>
      rw [if_pos] at h
      · cases h
        exact absurd hi (by simp)
      · simp [hempty]
  | false =>
      rw [if_neg] at h
      · cases h
        have hw : i < (findMatching db fid ev.value).length := by
          simpa [runDeliveries_length] using hi
        rw [runDeliveries_get (triggerPayload ev ts fid pl uuid) now
          (findMatching db fid ev.value) bs 0 i hw, Nat.zero_add] at hr ⊢
        cases hb : bs i with
        | raises m => rw [hb] at hr; simp [processWebhook] at hr
        | completes o =>
            rw [hb] at hr
            simp only [processWebhook, Option.some.injEq] at hr
            subst hr
            refine ⟨?_, ?_⟩
            · simpa [triggerPayload] using
                buildRequest_lookup_delivery
                  ((findMatching db fid ev.value).get ⟨i, hw⟩)
                  (triggerPayload ev ts fid pl uuid)
            · intro d hd
              cases o <;> simp [processWebhook, sendWebhook, triggerPayload] at hd
              exact hd.symm
      · simp [hempty]

/-- C1 (witness): in the concrete two-subscriber fan-out under `bsOK`,
the request built for the first subscriber carries the call's single
delivery id `u1`. -/
theorem fanout_delivery_id_shared_witness :
    (buildRequest wC pEx).headers.lookup "X-Formerr-Delivery" = some "u1" :=
  (fanout_delivery_id_shared dbEx "form_42" .submission_created (.obj [])
    "2025-01-01T00:00:00" "u1" 7 bsOK tOK 0 (buildRequest wC pEx) rfl (by decide) rfl).1

/-- C2: when the subscription's secret is truthy, the delivery request
carries an `X-Formerr-Signature` header equal to `"sha256="` followed by
the lowercase hex HMAC-SHA256 digest, keyed by the secret's UTF-8 bytes,
of the UTF-8 bytes of exactly the body string that is posted; that body
is the single `json.dumps` serialization of the envelope, so signing and
sending use the same bytes. -/
theorem signature_matches_transmitted_body (w : Webhook) (p : WebhookPayload)
    (h : secretTruthy w.secret = true) :
    (buildRequest w p).headers.lookup "X-Formerr-Signature" =
      some ("sha256=" ++ toHex (hmacSha256 (utf8Encode (w.secret.getD ""))
        (utf8Encode (buildRequest w p).body))) ∧
    (buildRequest w p).body = dumps (payloadJson p) := by
  constructor
  · simp [buildRequest, requestHeaders, h, List.lookup, create_signature]
  · rfl

/-- C2 (witness): the signed-body property instantiated on a concrete
subscription with secret `whsec_abc`. -/
theorem signature_matches_transmitted_body_witness :
    secretTruthy wB.secret = true ∧
    ((buildRequest wB pEx).headers.lookup "X-Formerr-Signature" =
      some ("sha256=" ++ toHex (hmacSha256 (utf8Encode (wB.secret.getD ""))
        (utf8Encode (buildRequest wB pEx).body))) ∧
     (buildRequest wB pEx).body = dumps (payloadJson pEx)) :=
  ⟨by decide, signature_matches_transmitted_body wB pEx (by decide)⟩

/-- C3: whatever each `_send_webhook` call does — classify a response,
classify a timeout or transport fault, or raise — `trigger_webhooks`
returns a result list (never an exception) with exactly one entry per
matching subscription. -/
theorem trigger_absorbs_delivery_errors (db : List Webhook) (fid : String)
    (ev : WebhookEvent) (pl : Json) (ts uuid : String) (now : Nat)
    (bs : Nat → SendBehavior) :
    ∃ t, trigger_webhooks db fid ev pl ts uuid now bs (.ok ()) = .ok t ∧
      t.results.length = (findMatching db fid ev.value).length := by
  cases hempty : (findMatching db fid ev.value).isEmpty with
  | true =>
      refine ⟨⟨[]⟩, by simp [trigger_webhooks, hempty], ?_⟩
      simp [TriggerTrace.results, List.isEmpty_iff.mp hempty]
  | false =>
      refine ⟨⟨runDeliveries (triggerPayload ev ts fid pl uuid) now
        (findMatching db fid ev.value) bs 0⟩, by simp [trigger_webhooks, hempty], ?_⟩
      simp [TriggerTrace.results, runDeliveries_length]

/-- C4 (counterexample): with one matching subscription whose delivery
succeeds, a failing bookkeeping commit makes `trigger_webhooks` itself
fail with that error instead of returning the collected result list. -/
theorem trigger_commit_failure_counterexample :
    trigger_webhooks dbEx "form_42" .submission_created (.obj []) "2025-01-01T00:00:00"
      "u1" 7 bsOK (.error "db down") = .error "db down" ∧
    (trigger_webhooks dbEx "form_42" .submission_created (.obj []) "2025-01-01T00:00:00"
      "u1" 7 bsOK (.error "db down")).isOk = false := by
  refine ⟨by decide, by decide⟩

/-- C4 (amended): when the fan-out is non-empty and the post-loop
`db.commit()` fails, the persistence error propagates out of
`trigger_webhooks` as an exception — there is no catch around the commit
— and the collected results are lost; only the submission-creation
caller swallows it. -/
theorem trigger_commit_failure_propagates (db : List Webhook) (fid : String)
    (ev : WebhookEvent) (pl : Json) (ts uuid : String) (now : Nat)
    (bs : Nat → SendBehavior) (e : String)
    (h : (findMatching db fid ev.value).isEmpty = false) :
    trigger_webhooks db fid ev pl ts uuid now bs (.error e) = .error e := by
  simp [trigger_webhooks, h]

/-- C4 (witness): the propagation instantiated on the concrete registry. -/
theorem trigger_commit_failure_propagates_witness :
    (findMatching dbEx "form_42" "submission.created").isEmpty = false ∧
    trigger_webhooks dbEx "form_42" .submission_created (.obj []) "2025-01-01T00:00:00"
      "u1" 7 bsOK (.error "pg unavailable") = .error "pg unavailable" :=
  ⟨by decide, trigger_commit_failure_propagates dbEx "form_42" .submission_created
    (.obj []) "2025-01-01T00:00:00" "u1" 7 bsOK "pg unavailable" (by decide)⟩

/-- C5: once the submission row is committed, `create_submission` returns
the submission whatever `trigger_webhooks` does — including raising (for
example on a failing bookkeeping commit): the dispatch outcome is caught
and at most printed, and never fails or rolls back the save. -/
theorem submission_isolated_from_dispatch (sub : Submission) (db : List Webhook)
    (fid : String) (ev : WebhookEvent) (pl : Json) (ts uuid : String) (now : Nat)
    (bs : Nat → SendBehavior) (commit : Except String Unit) :
    ∃ log, create_submission sub (.ok ())
      (trigger_webhooks db fid ev pl ts uuid now bs commit) = .ok (sub, log) := by
  cases h : trigger_webhooks db fid ev pl ts uuid now bs commit with
  | ok t => exact ⟨none, rfl⟩
  | error e => exact ⟨some e, rfl⟩

/-- C6: classification of one delivery attempt.  A response below 400 is
a success dict keeping the status code and elapsed time; a response at or
above 400 is a failure dict with the status code preserved and no error
key (the non-2xx case is the one failure shape that still carries a
status); a timeout is a failure dict with `error = "timeout"` and no
status; any other transport fault is a failure dict carrying the
exception's message and no status (the network case). -/
theorem delivery_outcome_classification (w : Webhook) (p : WebhookPayload)
    (st ms : Nat) (m : String) :
    (st < 400 → sendWebhook w p (.response st ms) =
      { webhook_id := w.id, success := true, status_code := some st,
        response_time_ms := some ms, error := none, url := w.url,
        delivery_id := some p.delivery_id }) ∧
    (400 ≤ st → sendWebhook w p (.response st ms) =
      { webhook_id := w.id, success := false, status_code := some st,
        response_time_ms := some ms, error := none, url := w.url,
        delivery_id := some p.delivery_id }) ∧
    sendWebhook w p .timeoutExc =
      { webhook_id := w.id, success := false, status_code := none,
        response_time_ms := none, error := some "timeout", url := w.url,
        delivery_id := none } ∧
    sendWebhook w p (.otherExc m) =
      { webhook_id := w.id, success := false, status_code := none,
        response_time_ms := none, error := some m, url := w.url,
        delivery_id := none } := by
  refine ⟨fun h => ?_, fun h => ?_, rfl, rfl⟩
  · simp [sendWebhook, h]
  · simp [sendWebhook, Nat.not_lt.mpr h]

/-- C6 (witness): the classification at HTTP 200 and HTTP 503. -/
theorem delivery_outcome_classification_witness :
    200 < 400 ∧
    sendWebhook wA pEx (.response 200 12) =
      { webhook_id := wA.id, success := true, status_code := some 200,
        response_time_ms := some 12, error := none, url := wA.url,
        delivery_id := some pEx.delivery_id } ∧
    400 ≤ 503 ∧
    sendWebhook wA pEx (.response 503 9) =
      { webhook_id := wA.id, success := false, status_code := some 503,
        response_time_ms := some 9, error := none, url := wA.url,
        delivery_id := some pEx.delivery_id } :=
  ⟨by decide, (delivery_outcome_classification wA pEx 200 12 "x").1 (by decide),
   by decide, (delivery_outcome_classification wA pEx 503 9 "x").2.1 (by decide)⟩

/-- C7: after each delivery attempt of the fan-out, the mutated row obeys
the counter contract — a successful attempt resets `failure_count` to 0
whatever its prior value, and a failed attempt (non-2xx, timeout,
transport fault or a raising `_send_webhook`) sets it to the prior value
plus one. -/
theorem counter_reset_and_increment (db : List Webhook) (fid : String)
    (ev : WebhookEvent) (pl : Json) (ts uuid : String) (now : Nat)
    (bs : Nat → SendBehavior) (t : TriggerTrace) (i : Nat)
    (h : trigger_webhooks db fid ev pl ts uuid now bs (.ok ()) = .ok t)
    (hi : i < t.steps.length)
    (hw : i < (findMatching db fid ev.value).length) :
    ((t.steps.get ⟨i, hi⟩).result.success = true →
      (t.steps.get ⟨i, hi⟩).webhook.failure_count = 0) ∧
    ((t.steps.get ⟨i, hi⟩).result.success = false →
      (t.steps.get ⟨i, hi⟩).webhook.failure_count =
        ((findMatching db fid ev.value).get ⟨i, hw⟩).failure_count + 1) := by
  simp only [trigger_webhooks] at h
  cases hempty : (findMatching db fid ev.value).isEmpty with
  | true => exact absurd hw (by simp [List.isEmpty_iff.mp hempty])
  | false =>
      rw [if_neg] at h
      · cases h
        rw [runDeliveries_get (triggerPayload ev ts fid pl uuid) now
          (findMatching db fid ev.value) bs 0 i hw, Nat.zero_add]
        cases bs i with
        | raises m => simp [processWebhook]
        | completes o =>
            simp only [processWebhook, List.get_eq_getElem]
            constructor
            · intro hs; simp [hs]
            · intro hs; simp [hs]
      · simp [hempty]

/-- C7 (witness): the degraded subscription `wC` (three failures) is
reset to 0 by one success, and the clean subscription `wA` moves to 1
after one timeout, within one fan-out. -/
theorem counter_reset_and_increment_witness :
    wC.failure_count = 3 ∧
    (tMix.steps.get ⟨0, by decide⟩).result.success = true ∧
    (tMix.steps.get ⟨0, by decide⟩).webhook.failure_count = 0 ∧
    (tMix.steps.get ⟨1, by decide⟩).result.success = false ∧
    (tMix.steps.get ⟨1, by decide⟩).webhook.failure_count = wA.failure_count + 1 := by
  refine ⟨by decide, by decide, ?_, by decide, ?_⟩
  · exact (counter_reset_and_increment dbEx "form_42" .submission_created (.obj [])
      "2025-01-01T00:00:00" "u1" 7 bsMix tMix 0 rfl (by decide) (by decide)).1 (by decide)
  · exact (counter_reset_and_increment dbEx "form_42" .submission_created (.obj [])
      "2025-01-01T00:00:00" "u1" 7 bsMix tMix 1 rfl (by decide) (by decide)).2 (by decide)

/-- C8: step `i` of the fan-out is exactly `processWebhook` of webhook
`i` and behaviour `i`, independent of every other subscriber's outcome,
and the trace holds one step per matching subscription — so a timeout at
one subscriber neither removes nor alters another subscriber's result. -/
theorem fanout_results_independent (db : List Webhook) (fid : String)
    (ev : WebhookEvent) (pl : Json) (ts uuid : String) (now : Nat)
    (bs : Nat → SendBehavior) (t : TriggerTrace) (i : Nat)
    (h : trigger_webhooks db fid ev pl ts uuid now bs (.ok ()) = .ok t)
    (hi : i < t.steps.length)
    (hw : i < (findMatching db fid ev.value).length) :
    t.steps.length = (findMatching db fid ev.value).length ∧
    t.steps.get ⟨i, hi⟩ =
      processWebhook (triggerPayload ev ts fid pl uuid) now
        ((findMatching db fid ev.value).get ⟨i, hw⟩) (bs i) := by
  simp only [trigger_webhooks] at h
  cases hempty : (findMatching db fid ev.value).isEmpty with
  | true => exact absurd hw (by simp [List.isEmpty_iff.mp hempty])
  | false =>
      rw [if_neg] at h
      · cases h
        refine ⟨by simp [runDeliveries_length], ?_⟩
        rw [runDeliveries_get (triggerPayload ev ts fid pl uuid) now
          (findMatching db fid ev.value) bs 0 i hw, Nat.zero_add]
      · simp [hempty]

/-- C8 (witness): subscriber `wC` succeeds while subscriber `wA` times
out in the same fan-out; both steps are present and each equals its own
`processWebhook`. -/
theorem fanout_results_independent_witness :
    tMix.steps.get ⟨0, by decide⟩ = processWebhook pEx 7 wC (bsMix 0) ∧
    tMix.steps.get ⟨1, by decide⟩ = processWebhook pEx 7 wA (bsMix 1) ∧
    (tMix.steps.get ⟨0, by decide⟩).result.success = true ∧
    (tMix.steps.get ⟨1, by decide⟩).result.error = some "timeout" := by
  refine ⟨?_, ?_, by decide, by decide⟩
  · exact (fanout_results_independent dbEx "form_42" .submission_created (.obj [])
      "2025-01-01T00:00:00" "u1" 7 bsMix tMix 0 rfl (by decide) (by decide)).2
  · exact (fanout_results_independent dbEx "form_42" .submission_created (.obj [])
      "2025-01-01T00:00:00" "u1" 7 bsMix tMix 1 rfl (by decide) (by decide)).2

/-- C9: every built delivery request carries the five fixed headers with
their exact values, and the `X-Formerr-Signature` header is present
(with the signature of the body) exactly when the subscription's secret
is truthy, being absent from the header list entirely otherwise. -/
theorem outbound_request_headers (w : Webhook) (p : WebhookPayload) :
    (buildRequest w p).headers.lookup "Content-Type" = some "application/json" ∧
    (buildRequest w p).headers.lookup "User-Agent" =
      some "Formerr-Webhooks/1.0 (BrunoV7)" ∧
    (buildRequest w p).headers.lookup "X-Formerr-Event" = some p.event ∧
    (buildRequest w p).headers.lookup "X-Formerr-Delivery" = some p.delivery_id ∧
    (buildRequest w p).headers.lookup "X-Formerr-Timestamp" = some p.timestamp ∧
    (buildRequest w p).headers.lookup "X-Formerr-Signature" =
      (if secretTruthy w.secret then
        some (create_signature (buildRequest w p).body (w.secret.getD "")) else none) := by
  cases hsec : secretTruthy w.secret <;>
    simp [buildRequest, requestHeaders, hsec, List.lookup]

/-- C10: a found webhook that is manually tested keeps its accumulated
`failure_count` on a successful test (no reset, unlike the trigger path)
and increments it by one on a failed test; only `last_triggered` is
otherwise updated — every other column is unchanged. -/
theorem test_webhook_keeps_counter_on_success (db : List Webhook)
    (wid ts uuid : String) (o : HttpOutcome) (now : Nat) (w : Webhook)
    (r : SendResult) (wu : Webhook)
    (hfind : db.find? (fun x => x.id == wid) = some w)
    (hrun : test_webhook db wid ts uuid o now (.ok ()) = .ok (.delivered r wu)) :
    (r.success = true → wu.failure_count = w.failure_count) ∧
    (r.success = false → wu.failure_count = w.failure_count + 1) ∧
    wu.last_triggered = some now ∧ wu.id = w.id ∧ wu.form_id = w.form_id ∧
    wu.url = w.url ∧ wu.events = w.events ∧ wu.secret = w.secret ∧
    wu.active = w.active := by
  simp only [test_webhook, hfind, Except.ok.injEq, TestResponse.delivered.injEq] at hrun
  obtain ⟨h1, h2⟩ := hrun
  subst h1
  subst h2
  cases hs : (sendWebhook w (testPayload w.form_id ts uuid) o).success <;>
    simp [hs]

/-- C10 (witness): a successful manual test of the degraded subscription
`wC` leaves its failure count at 3. -/
theorem test_webhook_keeps_counter_on_success_witness :
    ({ wC with
        last_triggered := some 7,
        failure_count := if (sendWebhook wC (testPayload wC.form_id "ts" "u1")
            (.response 200 5)).success then wC.failure_count
          else wC.failure_count + 1 } : Webhook).failure_count = wC.failure_count ∧
    (sendWebhook wC (testPayload wC.form_id "ts" "u1") (.response 200 5)).success = true ∧
    wC.failure_count = 3 := by
  refine ⟨?_, by decide, by decide⟩
  exact (test_webhook_keeps_counter_on_success [wC] "wh_c" "ts" "u1"
    (.response 200 5) 7 wC
    (sendWebhook wC (testPayload wC.form_id "ts" "u1") (.response 200 5))
    ({ wC with
        last_triggered := some 7,
        failure_count := if (sendWebhook wC (testPayload wC.form_id "ts" "u1")
            (.response 200 5)).success then wC.failure_count
          else wC.failure_count + 1 })
    rfl rfl).1 (by decide)

end Formerr
